import Mathlib

/-!
# Verification of the SerialView core against its specification

Shallow embedding of the core modules of the SerialView repository:

* `src/core/protocol_analyzer.py` — Modbus RTU frame decoding (CRC16,
  `parse_frame`, function-code interpretation) and user-declared frame
  layouts (`FrameDefinition.parse`).
* `src/plugins/script_engine.py` — auto-response rules, scheduled tasks,
  record/replay.
* `src/core/serial_manager.py` — connection lifecycle (`SerialConnection.connect`,
  `SerialWorker.run`).

Byte buffers are modelled as `List Nat` (each element a byte value); Python's
unbounded integers are `Nat`/`Int`; Python floats appearing as replay speeds
are modelled as exact rationals `ℚ` with Python `int()` truncation toward
zero made explicit.
-/

namespace SerialView

/-! ## Helpers shared by the embeddings -/

/-- Uppercase hexadecimal digit for a value below 16 (Python `:X` formatting). -/
def hexDigit (n : Nat) : Char :=
  if n < 10 then Char.ofNat (48 + n) else Char.ofNat (55 + n)

/-- Python `f"{n:04X}"` for `n < 0x10000` (the only values formatted this way
by the source: 16-bit CRC values). -/
def hex4 (n : Nat) : String :=
  String.mk [hexDigit (n / 4096 % 16), hexDigit (n / 256 % 16),
    hexDigit (n / 16 % 16), hexDigit (n % 16)]

/-- Python `f"{n:02X}"` for `n < 0x100` (single checksum bytes). -/
def hex2 (n : Nat) : String :=
  String.mk [hexDigit (n / 16 % 16), hexDigit (n % 16)]

/-- Big-endian 16-bit value of a 2-byte slice (`struct.unpack` with a
big-endian u16 format, applied by the source only to 2-byte slices). -/
def unpackBE16 (l : List Nat) : Nat :=
  256 * l.getD 0 0 + l.getD 1 0

/-! ## `ModbusRTUAnalyzer` (`src/core/protocol_analyzer.py`) -/

/-- `ModbusFrame` dataclass. -/
structure ModbusFrame where
  slave_id : Nat
  function_code : Nat
  data : List Nat
  crc : Nat
  is_valid : Bool
  error_msg : Option String
deriving Repr, DecidableEq

/-- One shift round of the Modbus CRC16 inner loop: if the low bit is set,
shift right and xor with 0xA001, else shift right. -/
def crcRound (crc : Nat) : Nat :=
  if crc % 2 = 1 then (crc / 2) ^^^ 0xA001 else crc / 2

/-- `ModbusRTUAnalyzer.calculate_crc`: register starts at 0xFFFF; each byte is
xored in and followed by 8 shift rounds. -/
def calculate_crc (data : List Nat) : Nat :=
  data.foldl (fun crc b => crcRound^[8] (crc ^^^ b)) 0xFFFF

/-- The CRC-mismatch message built by `ModbusRTUAnalyzer.parse_frame`. -/
def crcMismatchMsg (received calculated : Nat) : String :=
  "CRC mismatch: received=0x" ++ hex4 received ++ ", calculated=0x" ++ hex4 calculated

/-- `ModbusRTUAnalyzer.parse_frame`: `None` below 4 bytes; otherwise byte 0 is
the slave id, byte 1 the function code, `data[2:-2]` the payload, and the last
two bytes the little-endian received CRC, validated against the CRC of
`data[:-2]`. -/
def parse_frame (data : List Nat) : Option ModbusFrame :=
  if data.length < 4 then none
  else
    let slave_id := data.getD 0 0
    let function_code := data.getD 1 0
    let frame_data := (data.drop 2).take (data.length - 4)
    let received_crc := data.getD (data.length - 2) 0 + 256 * data.getD (data.length - 1) 0
    let calculated_crc := calculate_crc (data.take (data.length - 2))
    let is_valid := received_crc = calculated_crc
    some { slave_id := slave_id
           function_code := function_code
           data := frame_data
           crc := received_crc
           is_valid := is_valid
           error_msg := if is_valid then none
             else some (crcMismatchMsg received_crc (calculate_crc (data.take (data.length - 2)))) }

/-- Structured `details` dictionaries produced by the function-code specific
interpreters (each Python dict variant becomes one constructor; an `error` key
becomes `err`). -/
inductive Detail where
  | err (msg : String)
  | readHoldingRequest (start_address quantity : Nat)
  | readHoldingResponse (byte_count : Nat) (registers : List Nat)
  | writeSingleRegister (address value : Nat)
deriving Repr, DecidableEq

/-- `ModbusRTUAnalyzer.parse_read_holding_registers_request`. -/
def parse_read_holding_registers_request (frame : ModbusFrame) : Detail :=
  if frame.data.length < 4 then .err "Invalid data length"
  else .readHoldingRequest (unpackBE16 (frame.data.take 2))
    (unpackBE16 ((frame.data.drop 2).take 2))

/-- The register loop of `parse_read_holding_registers_response`: big-endian
pairs; a trailing odd byte is skipped because the loop requires `i + 1 < len`. -/
def registerPairs : List Nat → List Nat
  | a :: b :: rest => (256 * a + b) :: registerPairs rest
  | _ => []

/-- `ModbusRTUAnalyzer.parse_read_holding_registers_response`. -/
def parse_read_holding_registers_response (frame : ModbusFrame) : Detail :=
  if frame.data.length < 1 then .err "Invalid data length"
  else
    let byte_count := frame.data.getD 0 0
    let registers_data := frame.data.drop 1
    if registers_data.length ≠ byte_count then .err "Byte count mismatch"
    else .readHoldingResponse byte_count (registerPairs registers_data)

/-- `ModbusRTUAnalyzer.parse_write_single_register_request`. -/
def parse_write_single_register_request (frame : ModbusFrame) : Detail :=
  if frame.data.length < 4 then .err "Invalid data length"
  else .writeSingleRegister (unpackBE16 (frame.data.take 2))
    (unpackBE16 ((frame.data.drop 2).take 2))

/-- `ModbusRTUAnalyzer.analyze_frame`: the optional `details` entry of the
result dict (`none` when no interpreter handles the function code). -/
def analyze_frame (frame : ModbusFrame) : Option Detail :=
  if frame.function_code = 0x03 then
    if frame.data.length = 4 then some (parse_read_holding_registers_request frame)
    else some (parse_read_holding_registers_response frame)
  else if frame.function_code = 0x06 then
    some (parse_write_single_register_request frame)
  else none

/-! ## `FrameDefinition` — user-declared layouts (`src/core/protocol_analyzer.py`) -/

/-- Values produced by `FrameDefinition.parse`. The IEEE-754 meaning of a
`float` field and the utf-8 `errors=replace` decoding of a `string` field are
abstracted to the exact byte slices they are computed from (both are injective
images of those slices, and no claim depends on the decoded value itself). -/
inductive FieldValue where
  | uint (n : Nat)
  | sint (i : Int)
  | float32 (bigEndianBytes : List Nat)
  | bytes (bs : List Nat)
  | text (bs : List Nat)
deriving Repr, DecidableEq

/-- One entry of `FrameDefinition.fields` (the `description` entry is display
metadata and carried nowhere; `format_func` is an arbitrary Python callable). -/
structure Field where
  name : String
  type : String
  size : Nat
  format_func : Option (FieldValue → FieldValue) := none

/-- Two's-complement reading of an unsigned big-endian value (`struct.unpack`
with a signed format). -/
def toSigned (width : Nat) (n : Nat) : Int :=
  if n < 2 ^ (width - 1) then (n : Int) else (n : Int) - 2 ^ width

/-- The message of the `struct.error` raised when an unpack format needs more
bytes than the slice holds. -/
def structErr (k : Nat) : String :=
  "unpack requires a buffer of " ++ toString k ++ " bytes"

/-- The `ValueError` message for a cursor already at or past the end of input. -/
def notEnoughMsg (fieldName : String) : String :=
  "Not enough data for field \x27" ++ fieldName ++ "\x27"

/-- The per-field body of the `FrameDefinition.parse` loop: decode one field at
`offset`, returning the value and the advanced cursor, or the message of the
exception the Python code raises there. Fixed-width numeric formats unpack a
slice and fail when it is short; `bytes`/`string` slices are never checked for
length. -/
def decodeField (data : List Nat) (offset : Nat) (f : Field) :
    Except String (FieldValue × Nat) :=
  if f.type = "uint8" then .ok (.uint (data.getD offset 0), offset + 1)
  else if f.type = "uint16" then
    let sl := (data.drop offset).take 2
    if sl.length = 2 then .ok (.uint (unpackBE16 sl), offset + 2) else .error (structErr 2)
  else if f.type = "uint32" then
    let sl := (data.drop offset).take 4
    if sl.length = 4 then
      .ok (.uint (sl.foldl (fun a b => 256 * a + b) 0), offset + 4)
    else .error (structErr 4)
  else if f.type = "int8" then
    let sl := (data.drop offset).take 1
    if sl.length = 1 then .ok (.sint (toSigned 8 (sl.getD 0 0)), offset + 1)
    else .error (structErr 1)
  else if f.type = "int16" then
    let sl := (data.drop offset).take 2
    if sl.length = 2 then .ok (.sint (toSigned 16 (unpackBE16 sl)), offset + 2)
    else .error (structErr 2)
  else if f.type = "int32" then
    let sl := (data.drop offset).take 4
    if sl.length = 4 then
      .ok (.sint (toSigned 32 (sl.foldl (fun a b => 256 * a + b) 0)), offset + 4)
    else .error (structErr 4)
  else if f.type = "float" then
    let sl := (data.drop offset).take 4
    if sl.length = 4 then .ok (.float32 sl, offset + 4) else .error (structErr 4)
  else if f.type = "bytes" then
    .ok (.bytes ((data.drop offset).take f.size), offset + f.size)
  else if f.type = "string" then
    .ok (.text ((data.drop offset).take f.size), offset + f.size)
  else .error ("Unknown field type: " ++ f.type)

/-- The field loop of `FrameDefinition.parse`: walks the declared fields,
aborting with the fields accumulated so far and an error message when the
cursor is at or past the end of input (`offset >= len(data)`), when an unpack
fails, or when the field type is unknown. -/
def parseFields (data : List Nat) :
    List Field → Nat → List (String × FieldValue) →
    List (String × FieldValue) × Option String
  | [], _, acc => (acc, none)
  | f :: rest, offset, acc =>
    if data.length ≤ offset then (acc, some (notEnoughMsg f.name))
    else
      match decodeField data offset f with
      | .error msg => (acc, some msg)
      | .ok (v, offset2) =>
        let v2 := match f.format_func with
          | some g => g v
          | none => v
        parseFields data rest offset2 (acc ++ [(f.name, v2)])

/-- `CustomFrame` dataclass. -/
structure CustomFrame where
  raw_data : List Nat
  parsed_fields : List (String × FieldValue)
  is_valid : Bool
  error_msg : Option String

/-- `FrameDefinition`: ordered fields plus an optional checksum callable. -/
structure FrameDefinition where
  name : String
  fields : List Field
  checksum_func : Option (List Nat → Nat) := none

/-- The checksum-mismatch message built by `FrameDefinition.parse`. -/
def checksumMismatchMsg (received calculated : Nat) : String :=
  "Checksum mismatch: received=" ++ hex2 received ++ ", calculated=" ++ hex2 calculated

/-- `FrameDefinition.parse`: run the field loop; on success, when a checksum
function is registered and the input is non-empty, apply it to the FULL input
and compare with the last byte. -/
def FrameDefinition.parse (d : FrameDefinition) (data : List Nat) : CustomFrame :=
  match parseFields data d.fields 0 [] with
  | (acc, some msg) => ⟨data, acc, false, some msg⟩
  | (acc, none) =>
    match d.checksum_func with
    | none => ⟨data, acc, true, none⟩
    | some f =>
      if 0 < data.length then
        let calculated := f data
        let received := data.getLastD 0
        if calculated = received then ⟨data, acc, true, none⟩
        else ⟨data, acc, false, some (checksumMismatchMsg received calculated)⟩
      else ⟨data, acc, true, none⟩

/-- The frame definition of concrete scenario 4:
`[u8 header, u8 command, bytes(10) data, u8 checksum]`. -/
def scenarioDefinition : FrameDefinition :=
  { name := "Scenario Frame"
    fields :=
      [ { name := "header", type := "uint8", size := 1 }
      , { name := "command", type := "uint8", size := 1 }
      , { name := "data", type := "bytes", size := 10 }
      , { name := "checksum", type := "uint8", size := 1 } ] }

/-- The XOR checksum registered by `create_sample_frame_definition`: xor of
every byte except the last. -/
def xor_checksum (data : List Nat) : Nat :=
  data.dropLast.foldl (fun a b => a ^^^ b) 0

/-- `create_sample_frame_definition`. -/
def create_sample_frame_definition : FrameDefinition :=
  { name := "Sample Frame"
    fields :=
      [ { name := "header", type := "uint8", size := 1 }
      , { name := "command", type := "uint8", size := 1 }
      , { name := "data_length", type := "uint8", size := 1 }
      , { name := "data", type := "bytes", size := 10 }
      , { name := "checksum", type := "uint8", size := 1 } ]
    checksum_func := some xor_checksum }

/-! ## `ScriptEngine` (`src/plugins/script_engine.py`) -/

/-- `data.startswith(pat)` on byte sequences. -/
def byteStartsWith : List Nat → List Nat → Bool
  | _, [] => true
  | [], _ :: _ => false
  | d :: ds, p :: ps => d == p && byteStartsWith ds ps

/-- `data.endswith(pat)` on byte sequences. -/
def byteEndsWith (data pat : List Nat) : Bool :=
  byteStartsWith data.reverse pat.reverse

/-- `pat in data` on byte sequences (contiguous sub-sequence test). -/
def byteContains (pat : List Nat) : List Nat → Bool
  | [] => byteStartsWith [] pat
  | d :: tl => byteStartsWith (d :: tl) pat || byteContains pat tl

/-- `AutoResponseRule`. -/
structure AutoResponseRule where
  name : String
  pattern : List Nat
  response : List Nat
  pattern_type : String := "exact"
  delay_ms : Int := 0
  enabled : Bool := true
  match_count : Nat := 0
deriving Repr, DecidableEq

/-- The behaviour of Python's `re.search(pattern, data)` inside the rule
matcher: `none` models a raised exception (e.g. a malformed pattern), `some b`
a completed search with outcome `b`. The matcher is parametric in this oracle;
nothing else about the regex engine is relied on. -/
def RegexOracle : Type := List Nat → List Nat → Option Bool

/-- `AutoResponseRule.matches`: a disabled rule never matches; otherwise
dispatch on the pattern type, with any regex exception degraded to `false` by
the bare `except` clause. An unrecognized pattern type falls through to
`false`. -/
def AutoResponseRule.matches (rgx : RegexOracle) (r : AutoResponseRule)
    (data : List Nat) : Bool :=
  if !r.enabled then false
  else if r.pattern_type = "exact" then data == r.pattern
  else if r.pattern_type = "contains" then byteContains r.pattern data
  else if r.pattern_type = "starts_with" then byteStartsWith data r.pattern
  else if r.pattern_type = "ends_with" then byteEndsWith data r.pattern
  else if r.pattern_type = "regex" then (rgx r.pattern data).getD false
  else false

/-- A response transmission triggered by `check_auto_response`: either handed
to `QTimer.singleShot` with the rule's delay, or written immediately. -/
inductive SendAction where
  | deferred (delay_ms : Int) (data : List Nat)
  | immediate (data : List Nat)
deriving Repr, DecidableEq

/-- The send triggered by one matching rule. A rule with `delay_ms <= 0`
sends its own response immediately, inside the loop. A rule with
`delay_ms > 0` hands `QTimer.singleShot` its delay (an eagerly evaluated
argument) and a bare `lambda: serial_connection.send_data(rule.response)`:
that lambda captures the loop variable `rule` by name, with no
default-argument binding (contrast the replay loop, which binds `d=...`), and
the timer can only fire after the loop — and the whole slot — has returned,
when `rule` holds the loop variable's final value: the LAST rule of the full
rule list. `lateBound` is that final value, so the deferred payload is
`lateBound.response`, not the matching rule's own. -/
def firedAction (lateBound r : AutoResponseRule) : SendAction :=
  if r.delay_ms > 0 then .deferred r.delay_ms lateBound.response
  else .immediate r.response

/-- `ScriptEngine.add_auto_response_rule`: an unconditional append. -/
def add_auto_response_rule (rules : List AutoResponseRule)
    (rule : AutoResponseRule) : List AutoResponseRule :=
  rules ++ [rule]

/-- The `for rule in self.auto_response_rules` loop of
`ScriptEngine.check_auto_response`, with `lateBound` the final value of the
loop variable (see `firedAction`): every rule is visited; each matching rule
has its `match_count` incremented and one send triggered; the returned flag
says whether any rule matched. -/
def checkAutoResponseLoop (rgx : RegexOracle) (data : List Nat)
    (lateBound : AutoResponseRule) :
    List AutoResponseRule → List AutoResponseRule × List SendAction × Bool
  | [] => ([], [], false)
  | r :: rest =>
    let (rest2, sends, m) := checkAutoResponseLoop rgx data lateBound rest
    if r.matches rgx data then
      ({ r with match_count := r.match_count + 1 } :: rest2,
        firedAction lateBound r :: sends, true)
    else (r :: rest2, sends, m)

/-- `ScriptEngine.check_auto_response`: the loop runs over the whole rule
list, so when any deferred timer later fires, the lambda's `rule` is the last
rule of the list. An empty rule list does nothing and reports no match. -/
def check_auto_response (rgx : RegexOracle) (data : List Nat)
    (rules : List AutoResponseRule) :
    List AutoResponseRule × List SendAction × Bool :=
  match rules.getLast? with
  | none => ([], [], false)
  | some lateBound => checkAutoResponseLoop rgx data lateBound rules

/-- `ScheduledTask` (the Python attribute `repeat` is a reserved word here, so
it is carried as `repeatCount`; `-1` means unbounded). `timerArmed` models
whether the task's `QTimer` is running: `add_scheduled_task` starts it,
`timer.stop()` clears it, and a stopped timer delivers no further ticks. -/
structure ScheduledTask where
  name : String
  data : List Nat
  interval_ms : Int
  repeatCount : Int := -1
  enabled : Bool := true
  sent_count : Nat := 0
  timerArmed : Bool := false
deriving Repr, DecidableEq

/-- `ScriptEngine.add_scheduled_task`: an unconditional append, plus creating
and starting the task's timer. -/
def add_scheduled_task (tasks : List ScheduledTask) (task : ScheduledTask) :
    List ScheduledTask :=
  tasks ++ [{ task with timerArmed := true }]

/-- One delivery of the timer's `timeout` signal to `send_task_data`. A
stopped timer delivers nothing; a disabled task returns without sending;
otherwise the payload is sent, `sent_count` is incremented, and on reaching a
positive `repeat` the task stops its own timer and disables itself. Returns
the new task state and the payload sent by this tick, if any. -/
def tickTask (t : ScheduledTask) : ScheduledTask × Option (List Nat) :=
  if !t.timerArmed then (t, none)
  else if !t.enabled then (t, none)
  else
    let t2 := { t with sent_count := t.sent_count + 1 }
    if t.repeatCount > 0 ∧ (t.sent_count + 1 : Int) ≥ t.repeatCount then
      ({ t2 with timerArmed := false, enabled := false }, some t.data)
    else (t2, some t.data)

/-- `k` successive timer ticks, collecting every payload sent. -/
def runTicks (t : ScheduledTask) : Nat → ScheduledTask × List (List Nat)
  | 0 => (t, [])
  | k + 1 =>
    let (t2, out) := tickTask t
    let (t3, outs) := runTicks t2 k
    (t3, out.toList ++ outs)

/-- One record of a `RecordSession` (`{'direction', 'data', 'elapsed_ms'}`). -/
structure ReplayRecord where
  direction : String
  data : List Nat
  elapsed_ms : Int
deriving Repr, DecidableEq

/-- Python `int(q)`: truncation toward zero. -/
def pyTrunc (q : ℚ) : Int :=
  if 0 ≤ q then ⌊q⌋ else ⌈q⌉

/-- The loop of `ScriptEngine.replay_recording`: for each TX-direction record
hand `(int(elapsed_ms / speed), data)` to `QTimer.singleShot`; RX records are
skipped. A zero speed raises an uncaught `ZeroDivisionError` at the first TX
record, before anything is scheduled. -/
def replayLoop (speed : ℚ) : List ReplayRecord → Except String (List (Int × List Nat))
  | [] => .ok []
  | r :: rest =>
    if r.direction = "TX" then
      if speed = 0 then .error "ZeroDivisionError: float division by zero"
      else do
        let tail ← replayLoop speed rest
        pure ((pyTrunc ((r.elapsed_ms : ℚ) / speed), r.data) :: tail)
    else replayLoop speed rest

/-! ## `SerialConnection` (`src/core/serial_manager.py`) -/

/-- Qt signals observable on a `SerialConnection`. -/
inductive ConnSignal where
  | connected
  | disconnected
  | connection_lost
  | error_occurred (msg : String)
deriving Repr, DecidableEq

/-- The state of a `SerialConnection` visible to the lifecycle claims:
`is_connected` plus the number of reader worker threads started. -/
structure ConnState where
  is_connected : Bool
  workerCount : Nat
deriving Repr, DecidableEq

/-- `SerialConnection.connect`. `deviceAvailable` says whether the underlying
serial device could be acquired; the body never consults it, because
`connect` only constructs the worker and starts its thread — the actual
`serial.Serial(...)` open happens later, inside `SerialWorker.run` on the
worker thread. `ctorErr = some m` models the `except` branch: worker
construction/start raising with message `m`. Returns the boolean result, the
new state and the signals emitted. -/
def SerialConnection.connect (ctorErr : Option String) (deviceAvailable : Bool)
    (s : ConnState) : Bool × ConnState × List ConnSignal :=
  let _ := deviceAvailable
  if s.is_connected then (true, s, [])
  else
    match ctorErr with
    | some m => (false, s, [.error_occurred ("Connection failed: " ++ m)])
    | none =>
      (true, { is_connected := true, workerCount := s.workerCount + 1 }, [.connected])

/-- The port-opening prologue of `SerialWorker.run`: whether the device was
acquired, and the signals the worker emits when the open fails (only
`error_occurred` — no `connection_lost`, and nothing resets the connection's
`is_connected`). -/
def SerialWorker.runOpen (deviceAvailable : Bool) (errMsg : String) :
    Bool × List ConnSignal :=
  if deviceAvailable then (true, [])
  else (false, [.error_occurred ("Failed to open port: " ++ errMsg)])

/-! ## Theorems -/

set_option maxRecDepth 4000 in
/-- C1: fixed-protocol decode returns `none` below 4 bytes; otherwise it
returns a frame whose unit id is byte 0, function byte 1, payload
`b[2..len-2]`, received check the little-endian u16 of the last two bytes,
`valid` iff the CRC16 (register init 0xFFFF, per byte xor-then-8-shift-rounds)
of the buffer minus its trailing check bytes equals the received check, with a
descriptive mismatch message exactly when invalid. Bytes
`01 03 00 00 00 0A C5 CD` decode to unit 1, function 0x03, payload
`00 00 00 0A`, check 0xCDC5, valid; flipping the last byte to `CE` flips only
`valid`/`error_msg`/`crc`. -/
theorem C1_parse_frame_correct (b : List Nat) :
    (b.length < 4 → parse_frame b = none) ∧
    (4 ≤ b.length →
      ∃ fr, parse_frame b = some fr ∧
        fr.slave_id = b.getD 0 0 ∧
        fr.function_code = b.getD 1 0 ∧
        fr.data = (b.drop 2).take (b.length - 4) ∧
        fr.crc = b.getD (b.length - 2) 0 + 256 * b.getD (b.length - 1) 0 ∧
        (fr.is_valid = true ↔ calculate_crc (b.take (b.length - 2)) = fr.crc) ∧
        (fr.is_valid = false →
          fr.error_msg =
            some (crcMismatchMsg fr.crc (calculate_crc (b.take (b.length - 2))))) ∧
        (fr.is_valid = true → fr.error_msg = none)) ∧
    parse_frame [0x01, 0x03, 0x00, 0x00, 0x00, 0x0A, 0xC5, 0xCD] =
      some ⟨0x01, 0x03, [0x00, 0x00, 0x00, 0x0A], 0xCDC5, true, none⟩ ∧
    parse_frame [0x01, 0x03, 0x00, 0x00, 0x00, 0x0A, 0xC5, 0xCE] =
      some ⟨0x01, 0x03, [0x00, 0x00, 0x00, 0x0A], 0xCEC5, false,
        some "CRC mismatch: received=0xCEC5, calculated=0xCDC5"⟩ := by
  refine ⟨fun h => ?_, fun h => ?_, by decide, by decide⟩
  · unfold parse_frame
    rw [if_pos h]
  · unfold parse_frame
    rw [if_neg (Nat.not_lt.mpr h)]
    refine ⟨_, rfl, rfl, rfl, rfl, rfl, ?_, ?_, ?_⟩
    · dsimp only
      simp [eq_comm]
    · intro hv
      dsimp only at hv ⊢
      rw [if_neg (of_decide_eq_false hv)]
    · intro hv
      dsimp only at hv ⊢
      rw [if_pos (of_decide_eq_true hv)]

/-- Witness for C1 at concrete inputs: a 3-byte buffer decodes to `none`, a
4-byte buffer decodes to some frame. -/
theorem C1_parse_frame_correct_witness :
    parse_frame [1, 2, 3] = none ∧ parse_frame [9, 9, 9, 9] ≠ none := by
  refine ⟨(C1_parse_frame_correct [1, 2, 3]).1 (by decide), ?_⟩
  obtain ⟨fr, hfr, -⟩ := (C1_parse_frame_correct [9, 9, 9, 9]).2.1 (by decide)
  simp [hfr]

/-! ### Register-pair lemmas for the read-holding-registers response -/

lemma registerPairs_length : ∀ l : List Nat, (registerPairs l).length = l.length / 2
  | [] => rfl
  | [_] => by simp [registerPairs]
  | a :: b :: rest => by
    show (registerPairs rest).length + 1 = _
    rw [registerPairs_length rest]
    simp [List.length_cons]
    omega

lemma registerPairs_dropLast_of_odd :
    ∀ l : List Nat, l.length % 2 = 1 → registerPairs l = registerPairs l.dropLast
  | [], h => by simp at h
  | [_], _ => rfl
  | a :: b :: rest, h => by
    have hodd : rest.length % 2 = 1 := by
      simp [List.length_cons] at h
      omega
    have hne : rest ≠ [] := by
      intro he
      rw [he] at hodd
      simp at hodd
    have : (a :: b :: rest).dropLast = a :: b :: rest.dropLast := by
      obtain ⟨x, xs, rfl⟩ := List.exists_cons_of_ne_nil hne
      rfl
    rw [this]
    show (256 * a + b) :: registerPairs rest = (256 * a + b) :: registerPairs rest.dropLast
    rw [registerPairs_dropLast_of_odd rest hodd]

lemma registerPairs_getD :
    ∀ (l : List Nat) (i : Nat), i < (registerPairs l).length →
      (registerPairs l).getD i 0 = 256 * l.getD (2 * i) 0 + l.getD (2 * i + 1) 0
  | [], i, h => by simp [registerPairs] at h
  | [_], i, h => by simp [registerPairs] at h
  | a :: b :: rest, 0, _ => rfl
  | a :: b :: rest, i + 1, h => by
    have hi : i < (registerPairs rest).length := by
      have : (registerPairs (a :: b :: rest)).length = (registerPairs rest).length + 1 := rfl
      omega
    show (registerPairs rest).getD i 0 = _
    rw [registerPairs_getD rest i hi]
    have h1 : (a :: b :: rest).getD (2 * (i + 1)) 0 = rest.getD (2 * i) 0 := by
      have : 2 * (i + 1) = 2 * i + 1 + 1 := by omega
      rw [this]
      rfl
    have h2 : (a :: b :: rest).getD (2 * (i + 1) + 1) 0 = rest.getD (2 * i + 1) 0 := by
      have : 2 * (i + 1) + 1 = 2 * i + 1 + 1 + 1 := by omega
      rw [this]
      rfl
    rw [h1, h2]

/-- C10: interpreting a function-0x03 frame whose payload is not 4 bytes long,
with declared byte count equal to the register-data length but odd, succeeds
with no error detail; the registers list has `byte_count / 2` big-endian
pairs, the final data byte contributing to none of them. -/
theorem C10_odd_byte_count_response (c : Nat) (rest : List Nat) (fr : ModbusFrame)
    (hfc : fr.function_code = 0x03) (hdata : fr.data = c :: rest)
    (hlen : rest.length = c) (hodd : c % 2 = 1) (hne4 : fr.data.length ≠ 4) :
    analyze_frame fr = some (.readHoldingResponse c (registerPairs rest)) ∧
    (registerPairs rest).length = c / 2 ∧
    registerPairs rest = registerPairs rest.dropLast ∧
    (∀ i, i < c / 2 →
      (registerPairs rest).getD i 0 =
        256 * rest.getD (2 * i) 0 + rest.getD (2 * i + 1) 0) := by
  refine ⟨?_, ?_, ?_, ?_⟩
  · have hc3 : c ≠ 3 := by
      intro h
      apply hne4
      rw [hdata]
      simp [List.length_cons, hlen, h]
    simp [analyze_frame, parse_read_holding_registers_response, hfc, hne4, hdata, hlen, hc3]
  · rw [registerPairs_length, hlen]
  · exact registerPairs_dropLast_of_odd rest (by rw [hlen]; exact hodd)
  · intro i hi
    exact registerPairs_getD rest i (by rw [registerPairs_length, hlen]; exact hi)

/-- Witness for C10: a frame with function 0x03, declared byte count 5 and 5
register-data bytes yields two registers; the fifth byte appears in none. -/
theorem C10_odd_byte_count_response_witness :
    analyze_frame ⟨1, 3, [5, 1, 2, 3, 4, 5], 0, true, none⟩ =
      some (.readHoldingResponse 5 [0x0102, 0x0304]) ∧
    (registerPairs [1, 2, 3, 4, 5]).length = 2 := by
  have h := C10_odd_byte_count_response 5 [1, 2, 3, 4, 5]
    ⟨1, 3, [5, 1, 2, 3, 4, 5], 0, true, none⟩ rfl rfl rfl (by decide) (by decide)
  exact ⟨h.1, h.2.1⟩

/-! ### Write-single-register interpretation -/

lemma getD_take_of_lt (l : List Nat) {i n : Nat} (h : i < n) :
    (l.take n).getD i 0 = l.getD i 0 := by
  rw [List.getD_eq_getElem?_getD, List.getD_eq_getElem?_getD, List.getElem?_take_of_lt h]

lemma getD_drop (l : List Nat) (n i : Nat) :
    (l.drop n).getD i 0 = l.getD (n + i) 0 := by
  rw [List.getD_eq_getElem?_getD, List.getD_eq_getElem?_getD, List.getElem?_drop]

/-- Counterexample for C5: a function-0x06 frame with a 5-byte payload — a
length that is not exactly 4 — is decoded as a write-single-register detail
instead of returning a length error. -/
theorem C5_counterexample :
    analyze_frame ⟨1, 6, [0, 1, 0, 2, 9], 0, true, none⟩ =
      some (.writeSingleRegister 1 2) ∧
    [0, 1, 0, 2, 9].length ≠ 4 := by
  exact ⟨rfl, by decide⟩

/-- C5 as amended: interpretation of a function-0x06 frame returns the
explicit length error exactly for payloads SHORTER than 4 bytes; any payload
of length at least 4 — including lengths above 4 — decodes
`{address, value}` as big-endian u16 values from payload bytes 0-1 and 2-3,
ignoring any extra bytes. -/
theorem C5_write_single_register (fr : ModbusFrame) (hfc : fr.function_code = 0x06) :
    (fr.data.length < 4 →
      analyze_frame fr = some (.err "Invalid data length")) ∧
    (4 ≤ fr.data.length →
      analyze_frame fr = some (.writeSingleRegister
        (256 * fr.data.getD 0 0 + fr.data.getD 1 0)
        (256 * fr.data.getD 2 0 + fr.data.getD 3 0))) := by
  have hfc3 : fr.function_code ≠ 0x03 := by rw [hfc]; decide
  constructor
  · intro h
    simp [analyze_frame, parse_write_single_register_request, hfc, hfc3, h]
  · intro h
    have h4 : ¬(fr.data.length < 4) := Nat.not_lt.mpr h
    simp only [analyze_frame, parse_write_single_register_request, hfc, hfc3,
      if_neg h4, if_pos rfl, if_neg hfc3, reduceIte]
    rw [unpackBE16, unpackBE16, getD_take_of_lt _ (by omega), getD_take_of_lt _ (by omega),
      getD_take_of_lt _ (by omega), getD_take_of_lt _ (by omega), getD_drop, getD_drop]
    norm_num

/-- Witness for C5 as amended: a 2-byte payload errors, a 4-byte payload
decodes address 1, value 2. -/
theorem C5_write_single_register_witness :
    analyze_frame ⟨1, 6, [0, 1], 0, true, none⟩ = some (.err "Invalid data length") ∧
    analyze_frame ⟨1, 6, [0, 1, 0, 2], 0, true, none⟩ =
      some (.writeSingleRegister 1 2) := by
  refine ⟨(C5_write_single_register _ rfl).1 (by decide),
    ?_⟩
  have h := (C5_write_single_register ⟨1, 6, [0, 1, 0, 2], 0, true, none⟩ rfl).2 (by decide)
  exact h

/-! ### Declared-layout parsing -/

lemma parseFields_stop (data : List Nat) (f : Field) (rest : List Field)
    (offset : Nat) (acc : List (String × FieldValue)) (h : data.length ≤ offset) :
    parseFields data (f :: rest) offset acc = (acc, some (notEnoughMsg f.name)) := by
  unfold parseFields
  rw [if_pos h]

lemma parseFields_uint8_step (data : List Nat) (f : Field) (rest : List Field)
    (offset : Nat) (acc : List (String × FieldValue)) (h : offset < data.length)
    (hf : f.type = "uint8") (hff : f.format_func = none) :
    parseFields data (f :: rest) offset acc =
      parseFields data rest (offset + 1) (acc ++ [(f.name, .uint (data.getD offset 0))]) := by
  rw [parseFields, if_neg (by omega : ¬ data.length ≤ offset)]
  have hd : decodeField data offset f = .ok (.uint (data.getD offset 0), offset + 1) := by
    simp [decodeField, hf]
  rw [hd, hff]

lemma parseFields_bytes_step (data : List Nat) (f : Field) (rest : List Field)
    (offset : Nat) (acc : List (String × FieldValue)) (h : offset < data.length)
    (hf : f.type = "bytes") (hff : f.format_func = none) :
    parseFields data (f :: rest) offset acc =
      parseFields data rest (offset + f.size)
        (acc ++ [(f.name, .bytes ((data.drop offset).take f.size))]) := by
  rw [parseFields, if_neg (by omega : ¬ data.length ≤ offset)]
  have hd : decodeField data offset f =
      .ok (.bytes ((data.drop offset).take f.size), offset + f.size) := by
    simp [decodeField, hf]
  rw [hd, hff]

/-- Counterexample for C3: the scenario definition
`[u8 header, u8 command, bytes(10) data, u8 checksum]` on the 5-byte input
`[1, 2, 3, 4, 5]` fills the `data` field from only 3 bytes (less than its
declared width of 10) and reports the insufficiency against `checksum` — not
against `data`, the first field that could not be fully read. -/
theorem C3_counterexample :
    (scenarioDefinition.parse [1, 2, 3, 4, 5]).parsed_fields =
      [("header", .uint 1), ("command", .uint 2), ("data", .bytes [3, 4, 5])] ∧
    (scenarioDefinition.parse [1, 2, 3, 4, 5]).error_msg =
      some (notEnoughMsg "checksum") ∧
    [(3 : Nat), 4, 5].length ≠ 10 :=
  ⟨rfl, rfl, by decide⟩

/-- C3 as amended: the parser aborts — returning the fields decoded so far and
an error naming the field — exactly when it reaches a field with the cursor
already at or past the end of the input. A `bytes` field whose declared width
exceeds the remaining bytes does NOT abort: it is silently filled from the
shorter remainder and the cursor still advances by the declared width. Hence
for the scenario definition: on inputs of length 2 the error names `data`
with `header`/`command` present, while on inputs of length 3 to 12 the `data`
field is present but truncated to the remaining bytes and the error names
`checksum`. -/
theorem C3_parse_insufficient :
    (∀ (data : List Nat) (f : Field) (rest : List Field) (offset : Nat)
        (acc : List (String × FieldValue)), data.length ≤ offset →
        parseFields data (f :: rest) offset acc = (acc, some (notEnoughMsg f.name))) ∧
    (∀ (data : List Nat) (f : Field) (rest : List Field) (offset : Nat)
        (acc : List (String × FieldValue)), offset < data.length →
        f.type = "bytes" → f.format_func = none →
        parseFields data (f :: rest) offset acc =
          parseFields data rest (offset + f.size)
            (acc ++ [(f.name, .bytes ((data.drop offset).take f.size))])) ∧
    (∀ data : List Nat, data.length = 2 →
        scenarioDefinition.parse data =
          ⟨data, [("header", .uint (data.getD 0 0)), ("command", .uint (data.getD 1 0))],
            false, some (notEnoughMsg "data")⟩) ∧
    (∀ data : List Nat, 3 ≤ data.length → data.length < 13 →
        scenarioDefinition.parse data =
          ⟨data, [("header", .uint (data.getD 0 0)), ("command", .uint (data.getD 1 0)),
            ("data", .bytes (data.drop 2))], false, some (notEnoughMsg "checksum")⟩) := by
  refine ⟨parseFields_stop, parseFields_bytes_step, ?_, ?_⟩
  · intro data h
    obtain ⟨a, b, rfl⟩ := List.length_eq_two.mp h
    rfl
  · intro data h3 h13
    show FrameDefinition.parse _ data = _
    unfold FrameDefinition.parse
    have e1 : parseFields data scenarioDefinition.fields 0 [] =
        ([("header", .uint (data.getD 0 0)), ("command", .uint (data.getD 1 0)),
          ("data", .bytes (data.drop 2))], some (notEnoughMsg "checksum")) := by
      show parseFields data
        [⟨"header", "uint8", 1, none⟩, ⟨"command", "uint8", 1, none⟩,
          ⟨"data", "bytes", 10, none⟩, ⟨"checksum", "uint8", 1, none⟩] 0 [] = _
      rw [parseFields_uint8_step data _ _ _ _ (by show 0 < data.length; omega) rfl rfl,
        parseFields_uint8_step data _ _ _ _ (by show 0 + 1 < data.length; omega) rfl rfl,
        parseFields_bytes_step data _ _ _ _ (by show 0 + 1 + 1 < data.length; omega) rfl rfl,
        parseFields_stop data _ _ _ _ (by show data.length ≤ 0 + 1 + 1 + 10; omega)]
      have ht : (data.drop 2).take 10 = data.drop 2 :=
        List.take_of_length_le (by rw [List.length_drop]; omega)
      rw [ht]
      rfl
    rw [e1]

/-- Witness for C3 as amended, at concrete inputs of lengths 2 and 5. -/
theorem C3_parse_insufficient_witness :
    scenarioDefinition.parse [7, 8] =
      ⟨[7, 8], [("header", .uint 7), ("command", .uint 8)],
        false, some (notEnoughMsg "data")⟩ ∧
    scenarioDefinition.parse [1, 2, 3, 4, 5] =
      ⟨[1, 2, 3, 4, 5], [("header", .uint 1), ("command", .uint 2),
        ("data", .bytes [3, 4, 5])], false, some (notEnoughMsg "checksum")⟩ :=
  ⟨C3_parse_insufficient.2.2.1 [7, 8] (by decide),
   C3_parse_insufficient.2.2.2 [1, 2, 3, 4, 5] (by decide) (by decide)⟩

/-! ### Checksum validation of declared layouts -/

/-- A frame definition whose registered checksum callable returns the length
of the byte sequence handed to it: it distinguishes being invoked on the full
input from being invoked on the input minus its last byte. -/
def lenChecksumDefinition : FrameDefinition :=
  { name := "Len"
    fields := [{ name := "b0", type := "uint8", size := 1 }]
    checksum_func := some List.length }

/-- Counterexample for C4: parsing `[1]` with `lenChecksumDefinition`. Under
the claim the registered function is applied to the input excluding the last
byte, giving `length [] = 0 ≠ 1` and hence `valid = false`; the code applies
it to the full input (`length [1] = 1`, equal to the last byte) and returns
`valid = true` with no message. -/
theorem C4_counterexample :
    (lenChecksumDefinition.parse [1]).is_valid = true ∧
    (lenChecksumDefinition.parse [1]).error_msg = none ∧
    ¬ ([1].dropLast.length = [1].getLastD 0) :=
  ⟨rfl, rfl, by decide⟩

/-- C4 as amended: when a checksum function is registered, `parse` invokes it
over the FULL input (the sample definition's XOR checksum itself excludes the
final byte), compares the result with the last input byte, and on mismatch
returns the frame with `valid = false` and a descriptive message while every
already-decoded field stays in the result. -/
theorem C4_checksum_over_full_input (d : FrameDefinition) (data : List Nat)
    (f : List Nat → Nat) (acc : List (String × FieldValue))
    (hcf : d.checksum_func = some f)
    (hfields : parseFields data d.fields 0 [] = (acc, none))
    (hne : data ≠ []) :
    (f data = data.getLastD 0 →
      d.parse data = ⟨data, acc, true, none⟩) ∧
    (f data ≠ data.getLastD 0 →
      d.parse data = ⟨data, acc, false,
        some (checksumMismatchMsg (data.getLastD 0) (f data))⟩) := by
  unfold FrameDefinition.parse
  rw [hfields]
  dsimp only
  rw [hcf]
  dsimp only
  rw [if_pos (List.length_pos.mpr hne)]
  constructor
  · intro h
    rw [if_pos h]
  · intro h
    rw [if_neg h]

/-- Witness for C4 as amended: the sample frame definition (XOR checksum) on a
14-byte input with a correct and with an incorrect trailing checksum byte. -/
theorem C4_checksum_over_full_input_witness :
    create_sample_frame_definition.parse
        [0xAA, 1, 10, 0, 0, 0, 0, 0, 0, 0, 0, 0, 0, 161] =
      ⟨[0xAA, 1, 10, 0, 0, 0, 0, 0, 0, 0, 0, 0, 0, 161],
        [("header", .uint 0xAA), ("command", .uint 1), ("data_length", .uint 10),
         ("data", .bytes [0, 0, 0, 0, 0, 0, 0, 0, 0, 0]), ("checksum", .uint 161)],
        true, none⟩ ∧
    create_sample_frame_definition.parse
        [0xAA, 1, 10, 0, 0, 0, 0, 0, 0, 0, 0, 0, 0, 0] =
      ⟨[0xAA, 1, 10, 0, 0, 0, 0, 0, 0, 0, 0, 0, 0, 0],
        [("header", .uint 0xAA), ("command", .uint 1), ("data_length", .uint 10),
         ("data", .bytes [0, 0, 0, 0, 0, 0, 0, 0, 0, 0]), ("checksum", .uint 0)],
        false, some (checksumMismatchMsg 0 161)⟩ :=
  ⟨(C4_checksum_over_full_input create_sample_frame_definition _ xor_checksum _
      rfl rfl (by decide)).1 (by decide),
   (C4_checksum_over_full_input create_sample_frame_definition _ xor_checksum _
      rfl rfl (by decide)).2 (by decide)⟩

/-! ### Connection lifecycle -/

/-- Counterexample for C2: with the underlying device unavailable
(`deviceAvailable = false`), `connect` on an idle connection still returns
`True`, marks the connection as connected, counts one started reader worker
and emits `connected` — instead of failing; the device-open failure only
surfaces later as an `error_occurred` signal from the worker. -/
theorem C2_counterexample :
    SerialConnection.connect none false ⟨false, 0⟩ =
      (true, ⟨true, 1⟩, [.connected]) ∧
    SerialWorker.runOpen false "no such device" =
      (false, [.error_occurred "Failed to open port: no such device"]) :=
  ⟨rfl, rfl⟩

/-- C2 as amended: `connect` reports success optimistically. Unless worker
construction itself raises, connecting an idle connection returns `True`,
transitions to connected, starts exactly one reader worker and emits
`connected`, all WITHOUT consulting device availability (the outcome is
identical for an available and an unavailable device); the device is opened
later by the worker, whose failure emits only an error signal and acquires
nothing. A connection that is already connected returns `True` unchanged. -/
theorem C2_connect_optimistic (s s2 : ConnState) (d d2 : Bool) (m : String)
    (hs : s.is_connected = false) (hs2 : s2.is_connected = true) :
    SerialConnection.connect none d s =
      (true, { is_connected := true, workerCount := s.workerCount + 1 }, [.connected]) ∧
    SerialConnection.connect none d s = SerialConnection.connect none d2 s ∧
    SerialConnection.connect (some m) d s =
      (false, s, [.error_occurred ("Connection failed: " ++ m)]) ∧
    SerialWorker.runOpen false m =
      (false, [.error_occurred ("Failed to open port: " ++ m)]) ∧
    SerialConnection.connect none d s2 = (true, s2, []) := by
  refine ⟨?_, ?_, ?_, rfl, ?_⟩ <;>
    simp [SerialConnection.connect, SerialWorker.runOpen, hs, hs2]

/-- Witness for C2 as amended at a concrete idle and a concrete connected
state. -/
theorem C2_connect_optimistic_witness :
    SerialConnection.connect none true ⟨false, 0⟩ =
      (true, ⟨true, 1⟩, [.connected]) ∧
    SerialConnection.connect none true ⟨true, 1⟩ = (true, ⟨true, 1⟩, []) := by
  have h := C2_connect_optimistic ⟨false, 0⟩ ⟨true, 1⟩ true false "e" rfl rfl
  exact ⟨h.1, h.2.2.2.2⟩

/-! ### Replay scheduling -/

lemma pyTrunc_intCast (e : Int) : pyTrunc (e : ℚ) = e := by
  unfold pyTrunc
  split <;> simp

lemma pyTrunc_intCast_div_two (e : Int) (he : 0 ≤ e) :
    pyTrunc ((e : ℚ) / 2) = e / 2 := by
  have h2 : ((2 : ℚ)) = ((2 : ℕ) : ℚ) := by norm_num
  unfold pyTrunc
  rw [if_pos (by positivity), h2, Rat.floor_intCast_div_natCast]
  norm_num

/-- For any non-zero speed the replay loop raises nothing and schedules one
deferred send per TX-direction record, in order, with delay
`int(elapsed_ms / speed)`. -/
lemma replayLoop_eq (speed : ℚ) (hs : speed ≠ 0) :
    ∀ records : List ReplayRecord,
      replayLoop speed records =
        .ok ((records.filter (fun r => r.direction == "TX")).map
          (fun r => (pyTrunc ((r.elapsed_ms : ℚ) / speed), r.data)))
  | [] => rfl
  | r :: rest => by
    rw [replayLoop]
    by_cases hd : r.direction = "TX"
    · rw [if_pos hd, if_neg hs, replayLoop_eq speed hs rest]
      simp [List.filter_cons, hd, Except.bind]
    · rw [if_neg hd, replayLoop_eq speed hs rest]
      simp [List.filter_cons, hd]

/-- Counterexample for C6: a rule whose name is already present is appended
anyway — the rule list ends with two entries named `r1` — a scheduled task
duplicates the same way, and a replay at the non-positive speed `-1` is not
rejected: it schedules a send (at a truncated negative delay). -/
theorem C6_counterexample :
    (add_auto_response_rule (add_auto_response_rule []
        ⟨"r1", [65], [66], "exact", 0, true, 0⟩)
        ⟨"r1", [65], [66], "exact", 0, true, 0⟩).map AutoResponseRule.name =
      ["r1", "r1"] ∧
    (add_scheduled_task (add_scheduled_task [] ⟨"t1", [1], 100, 3, true, 0, false⟩)
        ⟨"t1", [1], 100, 3, true, 0, false⟩).map ScheduledTask.name =
      ["t1", "t1"] ∧
    replayLoop (-1) [⟨"TX", [65], 1000⟩] = .ok [(-1000, [65])] := by
  refine ⟨rfl, rfl, ?_⟩
  rw [replayLoop_eq (-1) (by norm_num) [⟨"TX", [65], 1000⟩]]
  have he : ((1000 : Int) : ℚ) / (-1 : ℚ) = ((-1000 : Int) : ℚ) := by norm_num
  simp only [List.filter, List.map, pyTrunc, he, Int.floor_intCast, Int.ceil_intCast]
  norm_num

/-- C6 as amended: neither duplicate names nor non-positive replay speeds are
validated. `add_auto_response_rule` and `add_scheduled_task` append
unconditionally, so a duplicate name does enter the rule/task list; a
negative replay speed schedules every TX send (with truncated negative
delays) instead of being rejected, and a zero speed raises an uncaught
`ZeroDivisionError` at the first TX record. -/
theorem C6_no_config_validation (rules : List AutoResponseRule)
    (r : AutoResponseRule) (tasks : List ScheduledTask) (t : ScheduledTask)
    (rec : ReplayRecord) (recs : List ReplayRecord) (speed : ℚ)
    (hTX : rec.direction = "TX") (hneg : speed < 0) :
    (add_auto_response_rule rules r).map AutoResponseRule.name =
      rules.map AutoResponseRule.name ++ [r.name] ∧
    (add_scheduled_task tasks t).map ScheduledTask.name =
      tasks.map ScheduledTask.name ++ [t.name] ∧
    replayLoop speed (rec :: recs) =
      .ok (((rec :: recs).filter (fun rr => rr.direction == "TX")).map
        (fun rr => (pyTrunc ((rr.elapsed_ms : ℚ) / speed), rr.data))) ∧
    replayLoop 0 (rec :: recs) =
      .error "ZeroDivisionError: float division by zero" := by
  refine ⟨by simp [add_auto_response_rule], by simp [add_scheduled_task],
    replayLoop_eq speed (ne_of_lt hneg) _, ?_⟩
  rw [replayLoop, if_pos hTX, if_pos rfl]

/-- Witness for C6 as amended at concrete rule, task, record and speed. -/
theorem C6_no_config_validation_witness :
    (add_auto_response_rule [⟨"r1", [65], [66], "exact", 0, true, 0⟩]
        ⟨"r1", [67], [68], "exact", 0, true, 0⟩).map AutoResponseRule.name =
      ["r1", "r1"] ∧
    replayLoop 0 [⟨"TX", [65], 1000⟩] =
      .error "ZeroDivisionError: float division by zero" := by
  have h := C6_no_config_validation [⟨"r1", [65], [66], "exact", 0, true, 0⟩]
    ⟨"r1", [67], [68], "exact", 0, true, 0⟩ [] ⟨"t1", [1], 100, 3, true, 0, false⟩
    ⟨"TX", [65], 1000⟩ [] (-1) rfl (by norm_num)
  exact ⟨h.1, h.2.2.2⟩

/-- Counterexample for C9: a session holding one TX record at elapsed 3 ms,
replayed at speed 2.0, schedules its send at the whole-millisecond delay 1 —
not at `3 / 2 = 1.5` — so "every delay halves" fails on odd elapsed times. -/
theorem C9_counterexample :
    replayLoop 2 [⟨"TX", [1], 3⟩] = .ok [(1, [1])] ∧
    ((1 : ℚ) ≠ (3 : ℚ) / 2) := by
  constructor
  · rw [replayLoop_eq 2 (by norm_num) [⟨"TX", [1], 3⟩]]
    norm_num [pyTrunc]
  · norm_num

/-- C9 as amended: `replay(name, speed)` schedules one deferred send per
TX-direction record and only those (RX records are never retransmitted), each
carrying that record's payload at the whole-millisecond delay
`int(record.elapsed_ms / speed)` (truncation toward zero). At speed 1.0 the
delays equal the recorded elapsed times exactly; at speed 2.0 each delay is
the elapsed time halved rounded down to a whole millisecond. -/
theorem C9_replay_tx_only (speed : ℚ) (records : List ReplayRecord)
    (hs : speed ≠ 0) :
    replayLoop speed records =
      .ok ((records.filter (fun r => r.direction == "TX")).map
        (fun r => (pyTrunc ((r.elapsed_ms : ℚ) / speed), r.data))) ∧
    replayLoop 1 records =
      .ok ((records.filter (fun r => r.direction == "TX")).map
        (fun r => (r.elapsed_ms, r.data))) ∧
    ((∀ r ∈ records, 0 ≤ r.elapsed_ms) →
      replayLoop 2 records =
        .ok ((records.filter (fun r => r.direction == "TX")).map
          (fun r => (r.elapsed_ms / 2, r.data)))) := by
  refine ⟨replayLoop_eq speed hs records, ?_, ?_⟩
  · rw [replayLoop_eq 1 one_ne_zero records]
    congr 1
    apply List.map_congr_left
    intro r _
    rw [div_one, pyTrunc_intCast]
  · intro he
    rw [replayLoop_eq 2 two_ne_zero records]
    congr 1
    apply List.map_congr_left
    intro r hr
    rw [pyTrunc_intCast_div_two _ (he r (List.mem_of_mem_filter hr))]

/-- Witness for C9 as amended: a TX record and an RX record at speed 1.0
(only the TX record is scheduled, at its recorded elapsed time), and an even
elapsed time at speed 2.0 (the delay halves exactly). -/
theorem C9_replay_tx_only_witness :
    replayLoop 1 [⟨"TX", [7], 5⟩, ⟨"RX", [8], 6⟩] = .ok [(5, [7])] ∧
    replayLoop 2 [⟨"TX", [7], 6⟩] = .ok [(3, [7])] := by
  have h1 := (C9_replay_tx_only 1 [⟨"TX", [7], 5⟩, ⟨"RX", [8], 6⟩] one_ne_zero).2.1
  have h2 := (C9_replay_tx_only 2 [⟨"TX", [7], 6⟩] two_ne_zero).2.2
    (by intro r hr; simp at hr; rw [hr]; norm_num)
  refine ⟨?_, ?_⟩
  · rw [h1]
    rfl
  · rw [h2]
    rfl

/-! ### Scheduled-task repeat limit -/

lemma runTicks_stopped (t : ScheduledTask) (ht : t.timerArmed = false) :
    ∀ k, runTicks t k = (t, [])
  | 0 => rfl
  | k + 1 => by
    have htick : tickTask t = (t, none) := by
      unfold tickTask
      rw [ht]
      rfl
    rw [runTicks, htick]
    dsimp only
    rw [runTicks_stopped t ht k]
    rfl

lemma runTicks_active (nm : String) (payload : List Nat) (iv n : Int) :
    ∀ (k s : Nat), (s : Int) < n →
      runTicks ⟨nm, payload, iv, n, true, s, true⟩ k =
        ((if s + k < n.toNat then (⟨nm, payload, iv, n, true, s + k, true⟩ : ScheduledTask)
          else ⟨nm, payload, iv, n, false, n.toNat, false⟩),
         List.replicate (min k (n.toNat - s)) payload)
  | 0, s, hs => by
    rw [runTicks, if_pos (by omega)]
    simp
  | k + 1, s, hs => by
    by_cases hc : (s + 1 : Int) ≥ n
    · have harm : tickTask ⟨nm, payload, iv, n, true, s, true⟩ =
          (⟨nm, payload, iv, n, false, s + 1, false⟩, some payload) := by
        have hcond : n > 0 ∧ (s : Int) + 1 ≥ n := ⟨by omega, by omega⟩
        simp [tickTask, hcond]
      rw [runTicks, harm]
      dsimp only
      rw [runTicks_stopped ⟨nm, payload, iv, n, false, s + 1, false⟩ rfl k]
      have hmin : min (k + 1) (n.toNat - s) = 1 := by omega
      rw [if_neg (by omega), hmin, show n.toNat = s + 1 by omega]
      rfl
    · have harm : tickTask ⟨nm, payload, iv, n, true, s, true⟩ =
          (⟨nm, payload, iv, n, true, s + 1, true⟩, some payload) := by
        have hcond : ¬(n > 0 ∧ (s : Int) + 1 ≥ n) := by omega
        simp [tickTask, hcond]
      rw [runTicks, harm]
      dsimp only
      rw [runTicks_active nm payload iv n k (s + 1) (by omega)]
      have hadd : s + 1 + k = s + (k + 1) := by omega
      have hmin : min k (n.toNat - (s + 1)) + 1 = min (k + 1) (n.toNat - s) := by omega
      simp only [Option.toList, List.singleton_append]
      rw [hadd, ← List.replicate_succ, hmin]

/-- C7: a fresh task with positive `repeat = n` sends its payload exactly
`min k n` times over any `k` ticks — in particular exactly `n` times once
`k ≥ n` — its `sent_count` never exceeds `n` at any point of the trajectory,
and from the `n`-th tick on the task has stopped its own timer and disabled
itself, no matter how many further ticks are delivered. -/
theorem C7_scheduled_task_repeat_limit (nm : String) (payload : List Nat)
    (iv n : Int) (hn : 0 < n) :
    (∀ k, (runTicks ⟨nm, payload, iv, n, true, 0, true⟩ k).2 =
      List.replicate (min k n.toNat) payload) ∧
    (∀ k, (runTicks ⟨nm, payload, iv, n, true, 0, true⟩ k).1.sent_count ≤ n.toNat) ∧
    (∀ k, n.toNat ≤ k →
      (runTicks ⟨nm, payload, iv, n, true, 0, true⟩ k).1 =
        ⟨nm, payload, iv, n, false, n.toNat, false⟩) := by
  refine ⟨fun k => ?_, fun k => ?_, fun k hk => ?_⟩
  · rw [runTicks_active nm payload iv n k 0 (by omega)]
    simp
  · rw [runTicks_active nm payload iv n k 0 (by omega)]
    dsimp only
    split <;> (simp; try omega)
  · rw [runTicks_active nm payload iv n k 0 (by omega)]
    rw [if_neg (by omega)]

/-- Witness for C7: a task with `repeat = 3` left armed for 5 ticks sends
exactly 3 payloads and ends disabled with a stopped timer and
`sent_count = 3`. -/
theorem C7_scheduled_task_repeat_limit_witness :
    (runTicks ⟨"t", [7], 100, 3, true, 0, true⟩ 5).2 = [[7], [7], [7]] ∧
    (runTicks ⟨"t", [7], 100, 3, true, 0, true⟩ 5).1 =
      ⟨"t", [7], 100, 3, false, 3, false⟩ := by
  have h := C7_scheduled_task_repeat_limit "t" [7] 100 3 (by decide)
  exact ⟨h.1 5, h.2.2 5 (by decide)⟩

/-! ### Auto-response rule evaluation -/

lemma byteStartsWith_iff : ∀ d p : List Nat, byteStartsWith d p = true ↔ p <+: d
  | _, [] => by simp [byteStartsWith, List.nil_prefix]
  | [], _ :: _ => by simp [byteStartsWith]
  | d :: ds, p :: ps => by
    rw [byteStartsWith, Bool.and_eq_true, beq_iff_eq, byteStartsWith_iff ds ps,
      List.cons_prefix_cons]
    tauto

lemma byteEndsWith_iff (d p : List Nat) : byteEndsWith d p = true ↔ p <:+ d := by
  rw [byteEndsWith, byteStartsWith_iff]
  exact List.reverse_prefix

lemma byteContains_iff : ∀ d p : List Nat, byteContains p d = true ↔ p <:+: d
  | [], p => by
    rw [byteContains, byteStartsWith_iff]
    simp [List.prefix_nil, List.infix_nil]
  | d :: tl, p => by
    rw [byteContains, Bool.or_eq_true, byteStartsWith_iff, byteContains_iff tl p]
    exact List.infix_cons_iff.symm

lemma checkAutoResponseLoop_spec (rgx : RegexOracle) (data : List Nat)
    (lb : AutoResponseRule) :
    ∀ rules : List AutoResponseRule,
      checkAutoResponseLoop rgx data lb rules =
        (rules.map (fun r => if r.matches rgx data then
            { r with match_count := r.match_count + 1 } else r),
         (rules.filter (fun r => r.matches rgx data)).map (firedAction lb),
         rules.any (fun r => r.matches rgx data))
  | [] => rfl
  | r :: rest => by
    rw [checkAutoResponseLoop, checkAutoResponseLoop_spec rgx data lb rest]
    by_cases h : r.matches rgx data
    · simp [h, List.filter_cons]
    · simp [h, List.filter_cons]

/-- Counterexample for C8: two enabled exact rules; payload `[65]` matches
only the first, which has a positive delay and response `[66]`; the last rule
of the list has response `[99]` and does not match. The deferred send
scheduled for the matching rule carries `[99]` — the last rule's response,
because the deferred lambda late-binds the loop variable `rule` — where the
claim demands the matching rule's own response `[66]`. -/
theorem C8_counterexample :
    check_auto_response (fun _ _ => none) [65]
      [⟨"r1", [65], [66], "exact", 5, true, 0⟩,
       ⟨"r2", [70], [99], "exact", 0, true, 0⟩] =
      ([⟨"r1", [65], [66], "exact", 5, true, 1⟩,
        ⟨"r2", [70], [99], "exact", 0, true, 0⟩],
       [.deferred 5 [99]], true) ∧
    [(99 : Nat)] ≠ [66] :=
  ⟨rfl, by decide⟩

/-- C8 as amended: on an RX payload, rule evaluation visits every rule (not
first-match-wins): exactly the matching enabled rules get `match_count`
incremented by 1 and exactly they trigger a send. A match with non-positive
delay sends its OWN response immediately; a match with positive delay is
scheduled after its configured delay, but the payload is resolved only when
the timer fires — after the loop has ended — so it is the response of the
LAST rule of the rule list, not necessarily the matching rule's own. A
disabled rule never matches; for enabled rules `exact` is full byte equality,
`contains` is contiguous sub-sequence presence, `starts_with`/`ends_with` are
byte prefix/suffix tests, and a regex whose search raises (e.g. a malformed
pattern) counts as a non-match. An `Exact` rule with pattern `AT\r\n` and
zero delay fires exactly once on the payload `AT\r\n` (its own response,
the late binding being invisible for a single zero-delay rule) and not at all
on `AT\r\nX`. -/
theorem C8_rule_evaluation (rgx : RegexOracle) (data : List Nat)
    (rules : List AutoResponseRule) (r lastRule : AutoResponseRule)
    (hlast : rules.getLast? = some lastRule) :
    check_auto_response rgx data rules =
      (rules.map (fun rr => if rr.matches rgx data then
          { rr with match_count := rr.match_count + 1 } else rr),
       (rules.filter (fun rr => rr.matches rgx data)).map (fun rr =>
         if rr.delay_ms > 0 then SendAction.deferred rr.delay_ms lastRule.response
         else SendAction.immediate rr.response),
       rules.any (fun rr => rr.matches rgx data)) ∧
    (r.enabled = false → r.matches rgx data = false) ∧
    (r.enabled = true → r.pattern_type = "exact" →
      (r.matches rgx data = true ↔ data = r.pattern)) ∧
    (r.enabled = true → r.pattern_type = "contains" →
      (r.matches rgx data = true ↔ r.pattern <:+: data)) ∧
    (r.enabled = true → r.pattern_type = "starts_with" →
      (r.matches rgx data = true ↔ r.pattern <+: data)) ∧
    (r.enabled = true → r.pattern_type = "ends_with" →
      (r.matches rgx data = true ↔ r.pattern <:+ data)) ∧
    (r.enabled = true → r.pattern_type = "regex" → rgx r.pattern data = none →
      r.matches rgx data = false) ∧
    check_auto_response rgx [65, 84, 13, 10]
        [⟨"at", [65, 84, 13, 10], [79, 75, 13, 10], "exact", 0, true, 0⟩] =
      ([⟨"at", [65, 84, 13, 10], [79, 75, 13, 10], "exact", 0, true, 1⟩],
       [.immediate [79, 75, 13, 10]], true) ∧
    check_auto_response rgx [65, 84, 13, 10, 88]
        [⟨"at", [65, 84, 13, 10], [79, 75, 13, 10], "exact", 0, true, 0⟩] =
      ([⟨"at", [65, 84, 13, 10], [79, 75, 13, 10], "exact", 0, true, 0⟩],
       [], false) := by
  refine ⟨?_, ?_, ?_, ?_, ?_, ?_, ?_, rfl, rfl⟩
  · have h1 : check_auto_response rgx data rules =
        checkAutoResponseLoop rgx data lastRule rules := by
      unfold check_auto_response
      rw [hlast]
    rw [h1, checkAutoResponseLoop_spec rgx data lastRule rules]
    rfl
  · intro he
    simp [AutoResponseRule.matches, he]
  · intro he ht
    simp [AutoResponseRule.matches, he, ht]
  · intro he ht
    rw [AutoResponseRule.matches]
    simp only [he, Bool.not_true, Bool.false_eq_true, if_false, ht]
    rw [if_neg (by decide), if_pos trivial]
    exact byteContains_iff data r.pattern
  · intro he ht
    rw [AutoResponseRule.matches]
    simp only [he, Bool.not_true, Bool.false_eq_true, if_false, ht]
    rw [if_neg (by decide), if_neg (by decide), if_pos trivial]
    exact byteStartsWith_iff data r.pattern
  · intro he ht
    rw [AutoResponseRule.matches]
    simp only [he, Bool.not_true, Bool.false_eq_true, if_false, ht]
    rw [if_neg (by decide), if_neg (by decide), if_neg (by decide), if_pos trivial]
    exact byteEndsWith_iff data r.pattern
  · intro he ht hr
    simp [AutoResponseRule.matches, he, ht, hr]

/-- Witness for C8 as amended at a concrete oracle, rules and payloads,
discharging each hypothesis: the two-rule list shows the deferred send
carrying the last rule's response; a disabled rule does not match; enabled
exact/contains/prefix/suffix rules match sample payloads; an enabled regex
rule whose search raises does not match. -/
theorem C8_rule_evaluation_witness :
    check_auto_response (fun _ _ => none) [65]
      [⟨"r1", [65], [66], "exact", 5, true, 0⟩,
       ⟨"r2", [70], [99], "exact", 7, true, 0⟩] =
      ([⟨"r1", [65], [66], "exact", 5, true, 1⟩,
        ⟨"r2", [70], [99], "exact", 7, true, 0⟩],
       [.deferred 5 [99]], true) ∧
    AutoResponseRule.matches (fun _ _ => none)
      ⟨"d", [65], [66], "exact", 0, false, 0⟩ [65] = false ∧
    AutoResponseRule.matches (fun _ _ => none)
      ⟨"e", [65, 84], [66], "exact", 0, true, 0⟩ [65, 84] = true ∧
    AutoResponseRule.matches (fun _ _ => none)
      ⟨"c", [84, 13], [66], "contains", 0, true, 0⟩ [65, 84, 13, 10] = true ∧
    AutoResponseRule.matches (fun _ _ => none)
      ⟨"s", [65, 84], [66], "starts_with", 0, true, 0⟩ [65, 84, 13] = true ∧
    AutoResponseRule.matches (fun _ _ => none)
      ⟨"z", [13, 10], [66], "ends_with", 0, true, 0⟩ [65, 84, 13, 10] = true ∧
    AutoResponseRule.matches (fun _ _ => none)
      ⟨"g", [40], [66], "regex", 0, true, 0⟩ [65] = false := by
  have h0 := (C8_rule_evaluation (fun _ _ => none) [65]
    [⟨"r1", [65], [66], "exact", 5, true, 0⟩,
     ⟨"r2", [70], [99], "exact", 7, true, 0⟩]
    ⟨"r1", [65], [66], "exact", 5, true, 0⟩
    ⟨"r2", [70], [99], "exact", 7, true, 0⟩ rfl).1
  have hd := (C8_rule_evaluation (fun _ _ => none) [65]
    [⟨"d", [65], [66], "exact", 0, false, 0⟩]
    ⟨"d", [65], [66], "exact", 0, false, 0⟩
    ⟨"d", [65], [66], "exact", 0, false, 0⟩ rfl).2.1 rfl
  have he := ((C8_rule_evaluation (fun _ _ => none) [65, 84]
    [⟨"e", [65, 84], [66], "exact", 0, true, 0⟩]
    ⟨"e", [65, 84], [66], "exact", 0, true, 0⟩
    ⟨"e", [65, 84], [66], "exact", 0, true, 0⟩ rfl).2.2.1 rfl rfl).mpr rfl
  have hc := ((C8_rule_evaluation (fun _ _ => none) [65, 84, 13, 10]
    [⟨"c", [84, 13], [66], "contains", 0, true, 0⟩]
    ⟨"c", [84, 13], [66], "contains", 0, true, 0⟩
    ⟨"c", [84, 13], [66], "contains", 0, true, 0⟩ rfl).2.2.2.1 rfl rfl).mpr
    ⟨[65], [10], rfl⟩
  have hs := ((C8_rule_evaluation (fun _ _ => none) [65, 84, 13]
    [⟨"s", [65, 84], [66], "starts_with", 0, true, 0⟩]
    ⟨"s", [65, 84], [66], "starts_with", 0, true, 0⟩
    ⟨"s", [65, 84], [66], "starts_with", 0, true, 0⟩ rfl).2.2.2.2.1 rfl rfl).mpr
    ⟨[13], rfl⟩
  have hz := ((C8_rule_evaluation (fun _ _ => none) [65, 84, 13, 10]
    [⟨"z", [13, 10], [66], "ends_with", 0, true, 0⟩]
    ⟨"z", [13, 10], [66], "ends_with", 0, true, 0⟩
    ⟨"z", [13, 10], [66], "ends_with", 0, true, 0⟩ rfl).2.2.2.2.2.1 rfl rfl).mpr
    ⟨[65, 84], rfl⟩
  have hg := (C8_rule_evaluation (fun _ _ => none) [65]
    [⟨"g", [40], [66], "regex", 0, true, 0⟩]
    ⟨"g", [40], [66], "regex", 0, true, 0⟩
    ⟨"g", [40], [66], "regex", 0, true, 0⟩ rfl).2.2.2.2.2.2.1 rfl rfl rfl
  refine ⟨?_, hd, he, hc, hs, hz, hg⟩
  rw [h0]
  rfl

end SerialView
